import Mathlib

/-
  Verification development for the Fire-Simulation repository.

  The repository holds two variants of a particle-based flame simulation:
  a 2D canvas variant (src/V01) and a 3D point-cloud variant (src/V01_3D),
  plus an unnamed 3D factory source (src/unnamed/part_001).

  Embedding conventions:
  - JavaScript number arithmetic is modelled exactly over the rationals
    where the source only adds, subtracts, multiplies, divides and floors;
    where the source uses transcendental functions (Math.sqrt, Math.log,
    Math.cos, Math.pow with fractional exponent) the embedding uses the
    reals and the corresponding Mathlib functions.
  - Calls to Math.random and to the passed-in gaussian sampler are modelled
    by oracle inputs: each factory or tick invocation receives a record of
    the values drawn during that invocation.  The gaussian sampler of the
    source has the affine form z0 * stdDev + mean (see gaussianRandom), so
    a factory call gaussian(mean, sd) is embedded as mean + sd * z where z
    is the oracle standard-normal draw for that call.
  - The deterministic turbulence value Math.sin(frameIndex * 0.04 +
    positionX * 0.02) is likewise an oracle input (field sinVal), since its
    exact value is a real sine; every theorem below quantifies over it.
-/

namespace FireSim

/-! ### 2D variant: data model (src/V01/src/lib/createParticle.js) -/

/-- FireParticle mirrors the particle record of createParticle.js:
position and velocity in pixels, energy bookkeeping, the fixed normalized
spawn distance and the burst tag. -/
structure FireParticle where
  positionX : ℚ
  positionY : ℚ
  velocityX : ℚ
  velocityY : ℚ
  initialEnergy : ℚ
  remainingEnergy : ℚ
  lifeFraction : ℚ
  basePixelRadius : ℚ
  normalizedDistanceFromCenter : ℚ
  receivedBurstEnergy : Bool

/-- Oracle record for the randomness consumed by one createFireParticle
call: zX is the standard-normal draw of the gaussian sampler, the u fields
are the uniform Math.random draws in the order the source makes them. -/
structure SpawnNoise where
  zX : ℚ
  uY : ℚ
  uBurstP : ℚ
  uBurstAmt : ℚ
  uVar : ℚ
  uKickP : ℚ
  uKick : ℚ
  uVelX : ℚ
  uRadius : ℚ

/-- spawnSpreadPixels of createParticle.js line 34: 40 - energyScalar01 * 25. -/
def spawnSpreadPixels (ep : ℚ) : ℚ := 40 - (ep / 100) * 25

/-- Floored spread Math.max(spawnSpreadPixels, 1e-3), the expression the
source uses both as the gaussian standard deviation (line 37) and as the
divisor of normalizedDistanceFromCenter (line 42). -/
def flooredSpread (ep : ℚ) : ℚ := max (spawnSpreadPixels ep) 1e-3

/-- Spawn x coordinate: gaussian(burnerCenterX, flooredSpread), embedded
as burnerCenterX + flooredSpread * z with z the oracle draw. -/
def spawnXOf (W ep : ℚ) (n : SpawnNoise) : ℚ := W / 2 + flooredSpread ep * n.zX

/-- normalizedDistanceFromCenter of line 41-42: |spawnX - center| / flooredSpread. -/
def normalizedDistanceOf (W ep : ℚ) (n : SpawnNoise) : ℚ :=
  |spawnXOf W ep n - W / 2| / flooredSpread ep

/-- burstEnergyBonus of line 45: with probability 0.15 a uniform draw in
0.3 + [0, 0.4), otherwise 0. -/
def burstEnergyBonus (n : SpawnNoise) : ℚ :=
  if n.uBurstP < 0.15 then 0.3 + n.uBurstAmt * 0.4 else 0

/-- centerEnergyBias of line 49: max(0, 1 - nd * 0.4 + bonus). -/
def centerEnergyBias (W ep : ℚ) (n : SpawnNoise) : ℚ :=
  max 0 (1 - normalizedDistanceOf W ep n * 0.4 + burstEnergyBonus n)

/-- initialEnergy of lines 52-55: (40 + energyScalar01 * 90) * bias * (0.7 + u * 0.6). -/
def initialEnergyOf (W ep : ℚ) (n : SpawnNoise) : ℚ :=
  (40 + (ep / 100) * 90) * centerEnergyBias W ep n * (0.7 + n.uVar * 0.6)

/-- createFireParticle of createParticle.js lines 26-78, with the random
draws supplied by the SpawnNoise oracle. -/
def createFireParticle (W H ep : ℚ) (n : SpawnNoise) : FireParticle :=
  { positionX := spawnXOf W ep n
    positionY := (H - 20) + (n.uY - 0.5) * 5
    velocityX := (n.uVelX - 0.5) * ((1 - ep / 100) * 0.8)
      + (if n.uKickP < 0.08 then (n.uKick - 0.5) * 1.2 else 0)
    velocityY := -1.5 - (ep / 100) * 4.5
    initialEnergy := initialEnergyOf W ep n
    remainingEnergy := initialEnergyOf W ep n
    lifeFraction := 1
    basePixelRadius := 4 + n.uRadius * 3
    normalizedDistanceFromCenter := normalizedDistanceOf W ep n
    receivedBurstEnergy := decide (0 < burstEnergyBonus n) }

/-! ### 2D variant: per-tick update (src/V01/src/components/FireSimulation.jsx) -/

/-- Oracle record for the randomness consumed while updating one particle
in one tick: sinVal stands for Math.sin(frameIndex * 0.04 + positionX * 0.02),
the u fields for the uniform draws of step 3.b. -/
structure TickNoise where
  sinVal : ℚ
  uSpikeP : ℚ
  uSpike : ℚ
  uRand : ℚ

/-- Energy lost by one particle in one tick, lines 128-131:
(0.8 + (1 - e) * 1.2) * (1 + atEdgePenalty), where the edge penalty
nd * 0.3 is waived for burst particles. -/
def energyLoss (ep : ℚ) (p : FireParticle) : ℚ :=
  (0.8 + (1 - ep / 100) * 1.2)
    * (1 + (if p.receivedBurstEnergy then 0 else p.normalizedDistanceFromCenter * 0.3))

/-- Horizontal velocity after steps 3.b (turbulence) and 3.c (recirculation)
of the tick, before integration and drag. -/
def velocityXAfterForces (W ep : ℚ) (n : TickNoise) (p : FireParticle) : ℚ :=
  p.velocityX
    + n.sinVal * ((1 - ep / 100) * 0.15)
    + (n.uRand - 0.5) * ((1 - ep / 100) * 0.15)
    + (if n.uSpikeP < 0.02 then (n.uSpike - 0.5) * 0.4 else 0)
    + (-(p.positionX - W / 2) * 0.002 * (1 - (ep / 100) * 0.5)
        * (if p.receivedBurstEnergy then 0.5 else 1))

/-- Vertical velocity after step 3.a (buoyancy). -/
def velocityYAfterBuoyancy (ep : ℚ) (p : FireParticle) : ℚ :=
  p.velocityY - 0.09 * (ep / 100)

/-- One tick of the update phase for one particle, steps 3.a-3.f of the
source: forces, Euler integration, decay, lifeFraction recomputation and
drag.  Note the source integrates position with the pre-drag velocity and
applies drag afterwards. -/
def updateParticle (W ep : ℚ) (n : TickNoise) (p : FireParticle) : FireParticle :=
  { p with
    positionX := p.positionX + velocityXAfterForces W ep n p
    positionY := p.positionY + velocityYAfterBuoyancy ep p
    velocityX := velocityXAfterForces W ep n p * (0.94 + (ep / 100) * 0.04)
    velocityY := velocityYAfterBuoyancy ep p * (0.96 + (ep / 100) * 0.02)
    remainingEnergy := p.remainingEnergy - energyLoss ep p
    lifeFraction := max 0 ((p.remainingEnergy - energyLoss ep p) / p.initialEnergy) }

/-- Liveness and margin test of step 3.g, lines 144-148: the particle is
kept (and drawn) iff its remaining energy is positive and its position is
inside the 30 pixel margin around the canvas. -/
def onScreen (W : ℚ) (p : FireParticle) : Bool :=
  decide (0 < p.remainingEnergy) && decide (-30 < p.positionY)
    && decide (-30 < p.positionX) && decide (p.positionX < W + 30)

/-- spawnPerFrame of line 89: 5 + Math.floor(energyPercent / 10). -/
def spawnPerFrame (ep : ℚ) : ℤ := 5 + ⌊ep / 10⌋

/-- particleCountCap of line 90: 400 + Math.floor(energyPercent * 3). -/
def particleCountCap (ep : ℚ) : ℤ := 400 + ⌊ep * 3⌋

/-- Spawn loop of lines 92-98: k gated pushes, each one appending a fresh
particle only while the population is below the cap.  The argument i
indexes the oracle stream so successive calls draw fresh randomness. -/
def spawnLoop (W H ep : ℚ) (sn : ℕ → SpawnNoise) : ℕ → ℕ → List FireParticle → List FireParticle
  | _, 0, ps => ps
  | i, k + 1, ps =>
    spawnLoop W H ep sn (i + 1) k
      (if (ps.length : ℤ) < particleCountCap ep
        then ps ++ [createFireParticle W H ep (sn i)] else ps)

/-- Update of every particle in order, each with its own tick noise. -/
def updateAll (W ep : ℚ) (tn : ℕ → TickNoise) : ℕ → List FireParticle → List FireParticle
  | _, [] => []
  | i, p :: rest => updateParticle W ep (tn i) p :: updateAll W ep tn (i + 1) rest

/-- One full tick of the 2D simulation, lines 82-191: spawn up to
spawnPerFrame particles (cap gated), update every particle, then cull by
the onScreen test.  The survivors are exactly the particles the emit phase
draws in that tick. -/
def tick (W H ep : ℚ) (sn : ℕ → SpawnNoise) (tn : ℕ → TickNoise)
    (ps : List FireParticle) : List FireParticle :=
  (updateAll W ep tn 0 (spawnLoop W H ep sn 0 (spawnPerFrame ep).toNat ps)).filter (onScreen W)

/-- t ticks of the 2D simulation from the empty collection, with per-tick
oracle streams. -/
def simulate (W H ep : ℚ) (sn : ℕ → ℕ → SpawnNoise) (tn : ℕ → ℕ → TickNoise) : ℕ → List FireParticle
  | 0 => []
  | t + 1 => tick W H ep (sn t) (tn t) (simulate W H ep sn tn t)

/-! ### 2D variant: color mapper (src/V01/src/lib/colors.js) -/

/-- RGBA output of the 2D color mapper: 8-bit integer channels plus a real
alpha. -/
structure RGBA where
  r : ℤ
  g : ℤ
  b : ℤ
  a : ℝ

/-- computeParticleColorRGBA of colors.js lines 14-43.  The r, g, b
channels branch on the energy scalar only; the alpha channel is
Math.pow(lifeFraction, 0.7) * 0.9. -/
noncomputable def computeParticleColorRGBA (lifeFraction : ℝ) (ep : ℚ) : RGBA :=
  if (0.7 : ℚ) < ep / 100 then
    { r := ⌊(120 : ℚ) + (ep / 100 - 0.7) / 0.3 * 135⌋
      g := ⌊(180 : ℚ) + (ep / 100 - 0.7) / 0.3 * 75⌋
      b := ⌊(255 : ℚ)⌋
      a := lifeFraction ^ (0.7 : ℝ) * 0.9 }
  else if (0.4 : ℚ) < ep / 100 then
    { r := ⌊(255 : ℚ)⌋
      g := ⌊(220 : ℚ) - (ep / 100 - 0.4) / 0.3 * 60⌋
      b := ⌊(30 : ℚ) + (ep / 100 - 0.4) / 0.3 * 170⌋
      a := lifeFraction ^ (0.7 : ℝ) * 0.9 }
  else
    { r := ⌊(220 : ℚ) + ep / 100 / 0.4 * 35⌋
      g := ⌊(40 : ℚ) + ep / 100 / 0.4 * 180⌋
      b := ⌊(10 : ℚ) + ep / 100 / 0.4 * 20⌋
      a := lifeFraction ^ (0.7 : ℝ) * 0.9 }

/-! ### Noise source (gaussianRandom of FireSimulation.jsx lines 215-222) -/

/-- gaussianRandom via the Box-Muller transform: u1 is clamped to
max(u1, 1e-12) before the logarithm, z0 = sqrt(-2 ln u1) * cos(2 pi u2),
and the sample is z0 * stdDev + mean. -/
noncomputable def gaussianRandom (mean stdDev u1 u2 : ℝ) : ℝ :=
  Real.sqrt (-2 * Real.log (max u1 1e-12)) * Real.cos (2 * Real.pi * u2) * stdDev + mean

/-! ### 3D variant (src/V01_3D/src/components/FireParticles.jsx) -/

namespace V3D

/-- MAX_PARTICLES of line 9: size (in particles) of the position and color
Float32Array buffers. -/
def MAX_PARTICLES : ℕ := 6000

/-- spawnRate of line 160: 10 + Math.floor(rampedScalar * 200) with
rampedScalar = energyScalar squared. -/
def spawnRate3D (e : ℚ) : ℤ := 10 + ⌊e ^ 2 * 200⌋

/-- particleCap of line 161: 500 + Math.floor(rampedScalar * 5500). -/
def particleCap3D (e : ℚ) : ℤ := 500 + ⌊e ^ 2 * 5500⌋

/-- Particle record of spawnParticle, lines 39-74: position, velocity,
life countdown, initial life and the per-frame recomputed color. -/
structure Particle3 where
  px : ℝ
  py : ℝ
  pz : ℝ
  vx : ℝ
  vy : ℝ
  vz : ℝ
  life : ℝ
  initialLife : ℝ
  cr : ℝ
  cg : ℝ
  cb : ℝ

/-- Oracle record for one spawnParticle call: standard-normal draws for
the three gaussian positions and the two gaussian velocities, and the
uniform draw of the life jitter. -/
structure Spawn3Noise where
  zX : ℝ
  zZ : ℝ
  zY : ℝ
  zVX : ℝ
  zVZ : ℝ
  uLife : ℝ

/-- RGB output of the 3D color mapper (normalized channels). -/
structure RGB3 where
  r : ℝ
  g : ℝ
  b : ℝ

/-- Life-banded base color of updateParticleColor, lines 85-106: the
four piecewise-linear bands white-to-yellow, yellow-to-orange,
orange-to-red and red-to-dark selected on lifeFraction. -/
noncomputable def baseColor3D (lifeFraction : ℝ) : RGB3 :=
  if (0.9 : ℝ) < lifeFraction then
    { r := 1, g := 1, b := 1 - (1 - 0.8) * ((lifeFraction - 0.9) / 0.1) }
  else if (0.7 : ℝ) < lifeFraction then
    { r := 1, g := 1 - (1 - 0.6) * ((lifeFraction - 0.7) / 0.2)
      b := 0.8 - 0.8 * ((lifeFraction - 0.7) / 0.2) }
  else if (0.4 : ℝ) < lifeFraction then
    { r := 1, g := 0.6 - 0.4 * ((lifeFraction - 0.4) / 0.3), b := 0 }
  else
    { r := 1 - (1 - 0.5) * (lifeFraction / 0.4), g := 0.2 * (lifeFraction / 0.4), b := 0 }

/-- updateParticleColor of lines 82-128: the life-banded base color, the
energy hotness additive shift clamped at 1 per channel, and the final
brightness sqrt(lifeFraction) * (0.3 + energyScalar^1.5 * 0.7). -/
noncomputable def updateParticleColor (lifeFraction energyScalar : ℝ) : RGB3 :=
  { r := min 1 ((baseColor3D lifeFraction).r
        + energyScalar ^ (1.5 : ℝ) * 1.5 * lifeFraction * 0.2)
      * (lifeFraction ^ (0.5 : ℝ) * (0.3 + energyScalar ^ (1.5 : ℝ) * 0.7))
    g := min 1 ((baseColor3D lifeFraction).g
        + energyScalar ^ (1.5 : ℝ) * 1.5 * lifeFraction * 0.2)
      * (lifeFraction ^ (0.5 : ℝ) * (0.3 + energyScalar ^ (1.5 : ℝ) * 0.7))
    b := min 1 ((baseColor3D lifeFraction).b
        + energyScalar ^ (1.5 : ℝ) * 1.5 * lifeFraction * 1.0)
      * (lifeFraction ^ (0.5 : ℝ) * (0.3 + energyScalar ^ (1.5 : ℝ) * 0.7)) }

/-- spawnParticle of lines 39-74: gaussian positions around the origin,
a strong upward velocity, and a lifetime biased toward the center via the
euclidean distance over the spawn radius. -/
noncomputable def spawnParticle (e : ℚ) (n : Spawn3Noise) : Particle3 :=
  { px := ((1.5 : ℝ) - (e : ℝ) * 1.2) * 0.5 * n.zX
    py := (0.2 : ℝ) * n.zY
    pz := ((1.5 : ℝ) - (e : ℝ) * 1.2) * 0.5 * n.zZ
    vx := (0.5 : ℝ) * n.zVX
    vy := 2 + (e : ℝ) ^ 2 * 10
    vz := (0.5 : ℝ) * n.zVZ
    life := (1 + (e : ℝ) ^ 2 * 2.5)
      * max 0 (1 - Real.sqrt ((((1.5 : ℝ) - (e : ℝ) * 1.2) * 0.5 * n.zX) ^ 2
          + (((1.5 : ℝ) - (e : ℝ) * 1.2) * 0.5 * n.zZ) ^ 2)
        / ((1.5 : ℝ) - (e : ℝ) * 1.2) * 0.5)
      * (0.8 + n.uLife * 0.4)
    initialLife := (1 + (e : ℝ) ^ 2 * 2.5)
      * max 0 (1 - Real.sqrt ((((1.5 : ℝ) - (e : ℝ) * 1.2) * 0.5 * n.zX) ^ 2
          + (((1.5 : ℝ) - (e : ℝ) * 1.2) * 0.5 * n.zZ) ^ 2)
        / ((1.5 : ℝ) - (e : ℝ) * 1.2) * 0.5)
      * (0.8 + n.uLife * 0.4)
    cr := 0
    cg := 0
    cb := 0 }

/-- Oracle record for updating one particle in one frame: noiseVal stands
for (sin(py * 0.5 + time) + cos(px * 0.5 + time)) * 0.4 of line 181. -/
structure Tick3Noise where
  noiseVal : ℝ

/-- Per-particle body of the filter of lines 171-206: decrement life by
delta and drop the particle if it is non-positive; otherwise apply
buoyancy, turbulence, drag, integrate the position, and recompute the
color from the new life fraction. -/
noncomputable def update3D (e : ℚ) (delta : ℝ) (n : Tick3Noise) (p : Particle3) : Option Particle3 :=
  if p.life - delta ≤ 0 then none
  else
    some
      { px := p.px + (p.vx + n.noiseVal * (1 - (e : ℝ)) * delta * 2)
            * (1 - (0.3 + (e : ℝ) * 0.4) * delta) * delta
        py := p.py + (p.vy + (0.02 + (e : ℝ) ^ 2 * 0.1) * delta * 60)
            * (1 - (0.3 + (e : ℝ) * 0.4) * delta) * delta
        pz := p.pz + (p.vz + n.noiseVal * (1 - (e : ℝ)) * delta * 2)
            * (1 - (0.3 + (e : ℝ) * 0.4) * delta) * delta
        vx := (p.vx + n.noiseVal * (1 - (e : ℝ)) * delta * 2)
            * (1 - (0.3 + (e : ℝ) * 0.4) * delta)
        vy := (p.vy + (0.02 + (e : ℝ) ^ 2 * 0.1) * delta * 60)
            * (1 - (0.3 + (e : ℝ) * 0.4) * delta)
        vz := (p.vz + n.noiseVal * (1 - (e : ℝ)) * delta * 2)
            * (1 - (0.3 + (e : ℝ) * 0.4) * delta)
        life := p.life - delta
        initialLife := p.initialLife
        cr := (updateParticleColor (max 0 ((p.life - delta) / p.initialLife)) (e : ℝ)).r
        cg := (updateParticleColor (max 0 ((p.life - delta) / p.initialLife)) (e : ℝ)).g
        cb := (updateParticleColor (max 0 ((p.life - delta) / p.initialLife)) (e : ℝ)).b }

/-- Spawn loop of lines 163-167: up to spawnRate pushes, each gated on
both the energy cap and MAX_PARTICLES. -/
noncomputable def spawnLoop3 (e : ℚ) (sn : ℕ → Spawn3Noise) : ℕ → ℕ → List Particle3 → List Particle3
  | _, 0, ps => ps
  | i, k + 1, ps =>
    spawnLoop3 e sn (i + 1) k
      (if (ps.length : ℤ) < particleCap3D e ∧ ps.length < MAX_PARTICLES
        then ps ++ [spawnParticle e (sn i)] else ps)

/-- The filter of lines 171-206 over the whole collection; the position of
a surviving particle in the returned list is exactly the particleIndex at
which its position and color are written into the buffers. -/
noncomputable def updateAll3 (e : ℚ) (delta : ℝ) (tn : ℕ → Tick3Noise) : ℕ → List Particle3 → List Particle3
  | _, [] => []
  | i, p :: rest =>
    (update3D e delta (tn i) p).elim (updateAll3 e delta tn (i + 1) rest)
      (fun q => q :: updateAll3 e delta tn (i + 1) rest)

/-- One useFrame body, lines 151-215: spawn then update-and-cull.  The
length of the returned list is the draw range set on the geometry. -/
noncomputable def frame3D (ep : ℚ) (delta : ℝ) (sn : ℕ → Spawn3Noise) (tn : ℕ → Tick3Noise)
    (ps : List Particle3) : List Particle3 :=
  updateAll3 (ep / 100) delta tn 0
    (spawnLoop3 (ep / 100) sn 0 (spawnRate3D (ep / 100)).toNat ps)

end V3D

/-! ### Unnamed 3D factory (src/unnamed/part_001) -/

namespace U

/-- Particle record returned by the unnamed createFireParticle. -/
structure FireParticleU where
  positionX : ℝ
  positionY : ℝ
  positionZ : ℝ
  velocityX : ℝ
  velocityY : ℝ
  velocityZ : ℝ
  initialEnergy : ℝ
  remainingEnergy : ℝ
  lifeFraction : ℝ
  basePixelRadius : ℝ
  normalizedDistanceFromCenter : ℝ
  receivedBurstEnergy : Bool

/-- Oracle record for one call of the unnamed factory. -/
structure SpawnNoiseU where
  zX : ℝ
  zZ : ℝ
  uY : ℝ
  uBurstP : ℝ
  uBurstAmt : ℝ
  uVar : ℝ
  uKickP : ℝ
  uKick : ℝ
  uVelX : ℝ
  uVelZ : ℝ
  uRadius : ℝ

/-- spawnSpreadUnits of part_001 line 9: 1.5 - energyScalar01 * 1.0. -/
noncomputable def spawnSpreadUnits (ep : ℝ) : ℝ := 1.5 - (ep / 100) * 1

/-- Floored spread Math.max(spawnSpreadUnits, 1e-3) used as the gaussian
standard deviation on both lateral axes and as the divisor of
normalizedDistanceFromCenter. -/
noncomputable def flooredSpreadU (ep : ℝ) : ℝ := max (spawnSpreadUnits ep) 1e-3

/-- createFireParticle of part_001, with the gaussian calls embedded as
flooredSpread times a standard-normal oracle draw. -/
noncomputable def createFireParticleU (ep : ℝ) (n : SpawnNoiseU) : FireParticleU :=
  { positionX := 0 + flooredSpreadU ep * n.zX
    positionY := 0 + (n.uY - 0.5) * 0.5
    positionZ := flooredSpreadU ep * n.zZ
    velocityX := (n.uVelX - 0.5) * ((1 - ep / 100) * 0.8)
      + (if n.uKickP < 0.08 then (n.uKick - 0.5) * 1.2 else 0)
    velocityY := 1.5 + (ep / 100) * 4.5
    velocityZ := (n.uVelZ - 0.5) * ((1 - ep / 100) * 0.8)
      + (if n.uKickP < 0.08 then (n.uKick - 0.5) * 1.2 else 0)
    initialEnergy := (40 + (ep / 100) * 90)
      * max 0 (1 - (Real.sqrt ((0 + flooredSpreadU ep * n.zX - 0) ^ 2
          + (flooredSpreadU ep * n.zZ) ^ 2) / flooredSpreadU ep) * 0.4
        + (if n.uBurstP < 0.15 then 0.3 + n.uBurstAmt * 0.4 else 0))
      * (0.7 + n.uVar * 0.6)
    remainingEnergy := (40 + (ep / 100) * 90)
      * max 0 (1 - (Real.sqrt ((0 + flooredSpreadU ep * n.zX - 0) ^ 2
          + (flooredSpreadU ep * n.zZ) ^ 2) / flooredSpreadU ep) * 0.4
        + (if n.uBurstP < 0.15 then 0.3 + n.uBurstAmt * 0.4 else 0))
      * (0.7 + n.uVar * 0.6)
    lifeFraction := 1
    basePixelRadius := 4 + n.uRadius * 3
    normalizedDistanceFromCenter := Real.sqrt ((0 + flooredSpreadU ep * n.zX - 0) ^ 2
      + (flooredSpreadU ep * n.zZ) ^ 2) / flooredSpreadU ep
    receivedBurstEnergy := decide (0 < (if n.uBurstP < 0.15 then 0.3 + n.uBurstAmt * 0.4 else 0)) }

end U

/-! ### Concrete oracle values and derived definitions used by the theorems -/

/-- Calm spawn oracle: the gaussian draw is 0 (spawn exactly on the burner
center line) and every uniform draw is 0.5, so no burst, no kick, and the
energy variation multiplier is exactly 1. -/
def calmSpawn : SpawnNoise :=
  { zX := 0, uY := 0.5, uBurstP := 0.5, uBurstAmt := 0, uVar := 0.5
    uKickP := 0.5, uKick := 0, uVelX := 0.5, uRadius := 0.5 }

/-- Edge spawn oracle: the gaussian draw is 3 standard deviations out and
the burst draw misses, so the center energy bias is max(0, 1 - 3 * 0.4) = 0
and the particle spawns with zero energy. -/
def edgeSpawn : SpawnNoise :=
  { zX := 3, uY := 0.5, uBurstP := 0.5, uBurstAmt := 0, uVar := 0.5
    uKickP := 0.5, uKick := 0, uVelX := 0.5, uRadius := 0.5 }

/-- Calm tick oracle: sine oscillation value 0, no spike, centered uniform
draw. -/
def calmTick : TickNoise := { sinVal := 0, uSpikeP := 0.5, uSpike := 0, uRand := 0.5 }

/-- The particle produced by the factory at full energy under the calm
spawn oracle. -/
def calmParticle : FireParticle := createFireParticle 800 600 100 calmSpawn

/-- The particle produced by the factory at full energy under the edge
spawn oracle; its initial and remaining energy are 0. -/
def edgeParticle : FireParticle := createFireParticle 800 600 100 edgeSpawn

/-- Canonical run: the 2D simulation on the 800 x 600 canvas at
energyPercent 100 where every spawn uses the calm spawn oracle and every
update the calm tick oracle. -/
def canonicalRun : ℕ → List FireParticle :=
  simulate 800 600 100 (fun _ _ => calmSpawn) (fun _ _ => calmTick)

/-- Spawn oracle stream whose first draw of each tick is the edge spawn
and all others the calm spawn. -/
def mixedSn : ℕ → ℕ → SpawnNoise := fun _ i => if i = 0 then edgeSpawn else calmSpawn

/-- Mixed run: like the canonical run but the first particle spawned each
tick is the zero-energy edge particle. -/
def mixedRun : ℕ → List FireParticle :=
  simulate 800 600 100 mixedSn (fun _ _ => calmTick)

/-- Live-particle invariant at tick boundaries: positive remaining energy,
remaining at most initial, nonnegative spawn distance, and life fraction
within the unit interval. -/
def InvP (p : FireParticle) : Prop :=
  0 < p.remainingEnergy ∧ p.remainingEnergy ≤ p.initialEnergy ∧
    0 ≤ p.normalizedDistanceFromCenter ∧ 0 ≤ p.lifeFraction ∧ p.lifeFraction ≤ 1

/-- State description of every particle of the canonical run after t
ticks: pinned to the center line, burst-free, with linearly bounded energy
and height. -/
def CanonInv (t : ℕ) (p : FireParticle) : Prop :=
  p.positionX = 400 ∧ p.velocityX = 0 ∧ p.receivedBurstEnergy = false ∧
    p.normalizedDistanceFromCenter = 0 ∧
    130 - 0.8 * (t : ℚ) ≤ p.remainingEnergy ∧ p.remainingEnergy ≤ 130 ∧
    -6.1 ≤ p.velocityY ∧ p.velocityY ≤ -4 ∧
    580 - 6.2 * (t : ℚ) ≤ p.positionY ∧ p.positionY ≤ 580

/-- N applications of the per-particle tick update, drawing tick noise
from the stream. -/
def updateN (W ep : ℚ) (tn : ℕ → TickNoise) : ℕ → FireParticle → FireParticle
  | 0, p => p
  | k + 1, p => updateParticle W ep (tn k) (updateN W ep tn k p)

/-- Center-spawned burst particle used to refute the unconditional decay
comparison. -/
def pBurstCenter : FireParticle :=
  { positionX := 400, positionY := 580, velocityX := 0, velocityY := -6
    initialEnergy := 100, remainingEnergy := 100, lifeFraction := 1
    basePixelRadius := 4, normalizedDistanceFromCenter := 0, receivedBurstEnergy := true }

/-- Center-spawned non-burst particle, identical to pBurstCenter except
for the burst tag. -/
def pPlainCenter : FireParticle :=
  { positionX := 400, positionY := 580, velocityX := 0, velocityY := -6
    initialEnergy := 100, remainingEnergy := 100, lifeFraction := 1
    basePixelRadius := 4, normalizedDistanceFromCenter := 0, receivedBurstEnergy := false }

/-- Burst particle one spread away from the center line, for the amended
decay comparison. -/
def pBurstEdge : FireParticle :=
  { positionX := 415, positionY := 580, velocityX := 0, velocityY := -6
    initialEnergy := 100, remainingEnergy := 100, lifeFraction := 1
    basePixelRadius := 4, normalizedDistanceFromCenter := 1, receivedBurstEnergy := true }

/-- Non-burst particle one spread away from the center line. -/
def pPlainEdge : FireParticle :=
  { positionX := 415, positionY := 580, velocityX := 0, velocityY := -6
    initialEnergy := 100, remainingEnergy := 100, lifeFraction := 1
    basePixelRadius := 4, normalizedDistanceFromCenter := 1, receivedBurstEnergy := false }

/-! ### Helper lemmas -/

theorem flooredSpread_ge (ep : ℚ) : (1e-3 : ℚ) ≤ flooredSpread ep := le_max_right _ _

theorem flooredSpread_pos (ep : ℚ) : 0 < flooredSpread ep :=
  lt_of_lt_of_le (by norm_num) (flooredSpread_ge ep)

theorem create_rem_eq_init (W H ep : ℚ) (n : SpawnNoise) :
    (createFireParticle W H ep n).remainingEnergy = (createFireParticle W H ep n).initialEnergy := rfl

theorem create_nd_nonneg (W H ep : ℚ) (n : SpawnNoise) :
    0 ≤ (createFireParticle W H ep n).normalizedDistanceFromCenter :=
  div_nonneg (abs_nonneg _) (flooredSpread_pos ep).le

theorem update_rem (W ep : ℚ) (n : TickNoise) (p : FireParticle) :
    (updateParticle W ep n p).remainingEnergy = p.remainingEnergy - energyLoss ep p := rfl

theorem update_init (W ep : ℚ) (n : TickNoise) (p : FireParticle) :
    (updateParticle W ep n p).initialEnergy = p.initialEnergy := rfl

theorem update_nd (W ep : ℚ) (n : TickNoise) (p : FireParticle) :
    (updateParticle W ep n p).normalizedDistanceFromCenter = p.normalizedDistanceFromCenter := rfl

theorem update_burst (W ep : ℚ) (n : TickNoise) (p : FireParticle) :
    (updateParticle W ep n p).receivedBurstEnergy = p.receivedBurstEnergy := rfl

theorem update_life (W ep : ℚ) (n : TickNoise) (p : FireParticle) :
    (updateParticle W ep n p).lifeFraction
      = max 0 ((p.remainingEnergy - energyLoss ep p) / p.initialEnergy) := rfl

theorem energyLoss_pos (ep : ℚ) (p : FireParticle) (h2 : ep ≤ 100)
    (hnd : 0 ≤ p.normalizedDistanceFromCenter) : 0 < energyLoss ep p := by
  unfold energyLoss
  have hbase : (0.8 : ℚ) ≤ 0.8 + (1 - ep / 100) * 1.2 := by nlinarith
  split_ifs with hb
  · nlinarith
  · nlinarith

theorem onScreen_true_iff (W : ℚ) (p : FireParticle) :
    onScreen W p = true ↔
      0 < p.remainingEnergy ∧ -30 < p.positionY ∧ -30 < p.positionX ∧ p.positionX < W + 30 := by
  simp [onScreen, and_assoc]

theorem update_px (W ep : ℚ) (n : TickNoise) (p : FireParticle) :
    (updateParticle W ep n p).positionX = p.positionX + velocityXAfterForces W ep n p := rfl

theorem update_py (W ep : ℚ) (n : TickNoise) (p : FireParticle) :
    (updateParticle W ep n p).positionY = p.positionY + velocityYAfterBuoyancy ep p := rfl

theorem update_vx (W ep : ℚ) (n : TickNoise) (p : FireParticle) :
    (updateParticle W ep n p).velocityX
      = velocityXAfterForces W ep n p * (0.94 + (ep / 100) * 0.04) := rfl

theorem update_vy (W ep : ℚ) (n : TickNoise) (p : FireParticle) :
    (updateParticle W ep n p).velocityY
      = velocityYAfterBuoyancy ep p * (0.96 + (ep / 100) * 0.02) := rfl

theorem mem_spawnLoop (W H ep : ℚ) (sn : ℕ → SpawnNoise) :
    ∀ (k i : ℕ) (ps : List FireParticle) (p : FireParticle),
      p ∈ spawnLoop W H ep sn i k ps →
        p ∈ ps ∨ ∃ j, p = createFireParticle W H ep (sn j) := by
  intro k
  induction k with
  | zero =>
    intro i ps p hp
    rw [spawnLoop] at hp
    exact Or.inl hp
  | succ k ih =>
    intro i ps p hp
    rw [spawnLoop] at hp
    rcases ih (i + 1) _ p hp with h | h
    · split_ifs at h with hg
      · rcases List.mem_append.mp h with h1 | h2
        · exact Or.inl h1
        · exact Or.inr ⟨i, List.mem_singleton.mp h2⟩
      · exact Or.inl h
    · exact Or.inr h

theorem mem_updateAll (W ep : ℚ) (tn : ℕ → TickNoise) :
    ∀ (l : List FireParticle) (i : ℕ) (q : FireParticle), q ∈ updateAll W ep tn i l →
      ∃ j p, p ∈ l ∧ q = updateParticle W ep (tn j) p := by
  intro l
  induction l with
  | nil =>
    intro i q hq
    rw [updateAll] at hq
    exact absurd hq (List.not_mem_nil q)
  | cons p rest ih =>
    intro i q hq
    rw [updateAll] at hq
    rcases List.mem_cons.mp hq with h | h
    · exact ⟨i, p, List.mem_cons_self p rest, h⟩
    · obtain ⟨j, q', hq', heq⟩ := ih (i + 1) q h
      exact ⟨j, q', List.mem_cons_of_mem p hq', heq⟩

theorem spawnLoop_eq_append (W H ep : ℚ) (sn : ℕ → SpawnNoise) :
    ∀ (k i : ℕ) (ps : List FireParticle), (ps.length : ℤ) + k ≤ particleCountCap ep →
      spawnLoop W H ep sn i k ps
        = ps ++ (List.range k).map (fun j => createFireParticle W H ep (sn (i + j))) := by
  intro k
  induction k with
  | zero =>
    intro i ps _
    rw [spawnLoop]
    simp
  | succ k ih =>
    intro i ps h
    have hg : (ps.length : ℤ) < particleCountCap ep := by push_cast at h; omega
    have h2 : (((ps ++ [createFireParticle W H ep (sn i)]).length : ℤ)) + k
        ≤ particleCountCap ep := by
      rw [List.length_append, List.length_singleton]
      push_cast at h ⊢
      omega
    rw [spawnLoop, if_pos hg, ih (i + 1) _ h2, List.append_assoc, List.singleton_append]
    congr 1
    rw [List.range_succ_eq_map, List.map_cons, List.map_map]
    congr 1
    apply List.map_congr_left
    intro a _
    show createFireParticle W H ep (sn (i + 1 + a)) = createFireParticle W H ep (sn (i + (a + 1)))
    rw [show i + 1 + a = i + (a + 1) from by omega]

theorem spawnLoop_length (W H ep : ℚ) (sn : ℕ → SpawnNoise) (k i : ℕ) (ps : List FireParticle)
    (h : (ps.length : ℤ) + k ≤ particleCountCap ep) :
    (spawnLoop W H ep sn i k ps).length = ps.length + k := by
  rw [spawnLoop_eq_append W H ep sn k i ps h]
  simp

theorem updateAll_const (W ep : ℚ) (tnC : TickNoise) :
    ∀ (l : List FireParticle) (i : ℕ),
      updateAll W ep (fun _ => tnC) i l = l.map (updateParticle W ep tnC) := by
  intro l
  induction l with
  | nil => intro i; rfl
  | cons p rest ih =>
    intro i
    rw [updateAll, List.map_cons, ih]

/-! ### Canonical run at full energy -/

theorem flooredSpread_100 : flooredSpread 100 = 15 := by
  unfold flooredSpread spawnSpreadPixels
  rw [max_eq_left (by norm_num)]
  norm_num

theorem spawnPerFrame_100 : (spawnPerFrame 100).toNat = 15 := by
  unfold spawnPerFrame
  rw [show (100 : ℚ) / 10 = ((10 : ℤ) : ℚ) by norm_num, Int.floor_intCast]
  rfl

theorem particleCountCap_100 : particleCountCap 100 = 700 := by
  unfold particleCountCap
  rw [show (100 : ℚ) * 3 = ((300 : ℤ) : ℚ) by norm_num, Int.floor_intCast]
  rfl

theorem calm_nd : normalizedDistanceOf 800 100 calmSpawn = 0 := by
  unfold normalizedDistanceOf spawnXOf
  rw [flooredSpread_100]
  rw [show (800 : ℚ) / 2 + 15 * calmSpawn.zX - 800 / 2 = 0 by norm_num [calmSpawn]]
  norm_num

theorem calm_bonus : burstEnergyBonus calmSpawn = 0 := by
  unfold burstEnergyBonus
  rw [if_neg (by norm_num [calmSpawn])]

theorem calmParticle_px : calmParticle.positionX = 400 := by
  show spawnXOf 800 100 calmSpawn = 400
  unfold spawnXOf
  rw [flooredSpread_100]
  norm_num [calmSpawn]

theorem calmParticle_vx : calmParticle.velocityX = 0 := by
  show (calmSpawn.uVelX - 0.5) * ((1 - (100 : ℚ) / 100) * 0.8)
      + (if calmSpawn.uKickP < 0.08 then (calmSpawn.uKick - 0.5) * 1.2 else 0) = 0
  rw [if_neg (by norm_num [calmSpawn])]
  norm_num [calmSpawn]

theorem calmParticle_burst : calmParticle.receivedBurstEnergy = false := by
  show decide (0 < burstEnergyBonus calmSpawn) = false
  rw [calm_bonus]
  norm_num

theorem calmParticle_nd : calmParticle.normalizedDistanceFromCenter = 0 := calm_nd

theorem calmParticle_energy : calmParticle.remainingEnergy = 130 := by
  show initialEnergyOf 800 100 calmSpawn = 130
  unfold initialEnergyOf centerEnergyBias
  rw [calm_nd, calm_bonus]
  rw [show max (0 : ℚ) (1 - 0 * 0.4 + 0) = 1 by rw [max_eq_right (by norm_num)]; norm_num]
  norm_num [calmSpawn]

theorem calmParticle_vy : calmParticle.velocityY = -6 := by
  show (-1.5 : ℚ) - 100 / 100 * 4.5 = -6
  norm_num

theorem calmParticle_py : calmParticle.positionY = 580 := by
  show ((600 : ℚ) - 20) + (calmSpawn.uY - 0.5) * 5 = 580
  norm_num [calmSpawn]

theorem calmParticle_canonInv (t : ℕ) : CanonInv t calmParticle := by
  have hc : (0 : ℚ) ≤ (t : ℚ) := Nat.cast_nonneg t
  refine ⟨calmParticle_px, calmParticle_vx, calmParticle_burst, calmParticle_nd, ?_, ?_, ?_, ?_, ?_, ?_⟩
  · rw [calmParticle_energy]; linarith
  · rw [calmParticle_energy]
  · rw [calmParticle_vy]; norm_num
  · rw [calmParticle_vy]; norm_num
  · rw [calmParticle_py]; linarith
  · rw [calmParticle_py]

theorem energyLoss_calm (p : FireParticle) (hb : p.receivedBurstEnergy = false)
    (hnd : p.normalizedDistanceFromCenter = 0) : energyLoss 100 p = 0.8 := by
  unfold energyLoss
  rw [hb, hnd]
  norm_num

theorem canon_step (t : ℕ) (p : FireParticle) (h : CanonInv t p) (ht : (t : ℚ) + 1 ≤ 46) :
    CanonInv (t + 1) (updateParticle 800 100 calmTick p) ∧
      onScreen 800 (updateParticle 800 100 calmTick p) = true := by
  obtain ⟨hx, hvx, hb, hnd, hr1, hr2, hvy1, hvy2, hy1, hy2⟩ := h
  have hforce : velocityXAfterForces 800 100 calmTick p = 0 := by
    unfold velocityXAfterForces
    rw [hx, hvx, hb]
    norm_num [calmTick]
  have hloss : energyLoss 100 p = 0.8 := energyLoss_calm p hb hnd
  have hbuoy : velocityYAfterBuoyancy 100 p = p.velocityY - 0.09 := by
    unfold velocityYAfterBuoyancy
    norm_num
  constructor
  · refine ⟨?_, ?_, ?_, ?_, ?_, ?_, ?_, ?_, ?_, ?_⟩
    · rw [update_px, hforce, hx]; norm_num
    · rw [update_vx, hforce]; ring
    · rw [update_burst]; exact hb
    · rw [update_nd]; exact hnd
    · rw [update_rem, hloss]; push_cast; linarith
    · rw [update_rem, hloss]; linarith
    · rw [update_vy, hbuoy]; ring_nf; linarith
    · rw [update_vy, hbuoy]; ring_nf; linarith
    · rw [update_py, hbuoy]; push_cast; linarith
    · rw [update_py, hbuoy]; linarith
  · rw [onScreen_true_iff]
    refine ⟨?_, ?_, ?_, ?_⟩
    · rw [update_rem, hloss]; linarith
    · rw [update_py, hbuoy]; linarith
    · rw [update_px, hforce, hx]; norm_num
    · rw [update_px, hforce, hx]; norm_num

theorem canonicalRun_succ (t : ℕ) :
    canonicalRun (t + 1)
      = tick 800 600 100 (fun _ => calmSpawn) (fun _ => calmTick) (canonicalRun t) := rfl

theorem canonical_inv : ∀ t : ℕ, t ≤ 46 →
    (canonicalRun t).length = 15 * t ∧ ∀ p ∈ canonicalRun t, CanonInv t p := by
  intro t
  induction t with
  | zero =>
    intro _
    constructor
    · rfl
    · intro p hp
      exact absurd hp (List.not_mem_nil p)
  | succ t ih =>
    intro ht
    obtain ⟨hlen, hinv⟩ := ih (by omega)
    have htq : (t : ℚ) + 1 ≤ 46 := by
      have : ((t + 1 : ℕ) : ℚ) ≤ ((46 : ℕ) : ℚ) := by exact_mod_cast ht
      push_cast at this
      linarith
    have hcap : ((canonicalRun t).length : ℤ) + 15 ≤ particleCountCap 100 := by
      rw [hlen, particleCountCap_100]
      push_cast
      omega
    have hspawn : spawnLoop 800 600 100 (fun _ => calmSpawn) 0 15 (canonicalRun t)
        = canonicalRun t ++ List.replicate 15 calmParticle := by
      rw [spawnLoop_eq_append 800 600 100 (fun _ => calmSpawn) 15 0 _ hcap]
      congr 1
    have hsp_inv : ∀ p ∈ canonicalRun t ++ List.replicate 15 calmParticle, CanonInv t p := by
      intro p hp
      rcases List.mem_append.mp hp with h | h
      · exact hinv p h
      · rw [List.eq_of_mem_replicate h]
        exact calmParticle_canonInv t
    have hstep : ∀ p ∈ canonicalRun t ++ List.replicate 15 calmParticle,
        CanonInv (t + 1) (updateParticle 800 100 calmTick p) ∧
          onScreen 800 (updateParticle 800 100 calmTick p) = true :=
      fun p hp => canon_step t p (hsp_inv p hp) htq
    have htick : canonicalRun (t + 1)
        = ((canonicalRun t ++ List.replicate 15 calmParticle).map
            (updateParticle 800 100 calmTick)).filter (onScreen 800) := by
      rw [canonicalRun_succ]
      unfold tick
      rw [spawnPerFrame_100, hspawn, updateAll_const]
    have hfil : ((canonicalRun t ++ List.replicate 15 calmParticle).map
          (updateParticle 800 100 calmTick)).filter (onScreen 800)
        = (canonicalRun t ++ List.replicate 15 calmParticle).map
            (updateParticle 800 100 calmTick) := by
      rw [List.filter_eq_self]
      intro a ha
      obtain ⟨p, hp, rfl⟩ := List.mem_map.mp ha
      exact (hstep p hp).2
    constructor
    · rw [htick, hfil, List.length_map, List.length_append, List.length_replicate, hlen]
      ring
    · intro q hq
      rw [htick, hfil] at hq
      obtain ⟨p, hp, rfl⟩ := List.mem_map.mp hq
      exact (hstep p hp).1

/-! ### Claim C6: the Box-Muller noise source -/

/-- Claim C6: gaussianRandom returns mean + stddev * sqrt(-2 ln(max(u1, 1e-12)))
* cos(2 pi u2) for all uniform draws u1, u2 in the unit interval, and the
clamped logarithm argument is always positive, so the singularity of the
logarithm at 0 is never hit. -/
theorem gaussianRandom_boxMuller :
    ∀ mean stdDev u1 u2 : ℝ, 0 ≤ u1 → u1 < 1 → 0 ≤ u2 → u2 < 1 →
      gaussianRandom mean stdDev u1 u2
          = mean + stdDev * (Real.sqrt (-2 * Real.log (max u1 1e-12)) * Real.cos (2 * Real.pi * u2))
        ∧ 0 < max u1 1e-12 := by
  intro mean stdDev u1 u2 _ _ _ _
  constructor
  · unfold gaussianRandom; ring
  · exact lt_of_lt_of_le (by norm_num) (le_max_right _ _)

/-- Witness for C6 at mean 0, stddev 1, u1 = 0, u2 = 0. -/
theorem gaussianRandom_boxMuller_witness :
    (0 : ℝ) ≤ 0 ∧ (0 : ℝ) < 1 ∧
      (gaussianRandom 0 1 0 0
          = 0 + 1 * (Real.sqrt (-2 * Real.log (max 0 1e-12)) * Real.cos (2 * Real.pi * 0))
        ∧ 0 < max (0 : ℝ) 1e-12) :=
  ⟨le_refl 0, by norm_num,
    gaussianRandom_boxMuller 0 1 0 0 (le_refl 0) (by norm_num) (le_refl 0) (by norm_num)⟩

/-! ### Claim C9: defensive flooring of the spawn spread -/

/-- Claim C9: in every factory call the spawn spread is floored at 1e-3
before it is used, both as the gaussian standard deviation multiplying the
standard-normal draw and as the divisor of normalizedDistanceFromCenter,
so the divisor is positive in the 2D factory and in the unnamed 3D
factory alike. -/
theorem spawn_spread_floored_positive :
    ∀ (W H ep : ℚ) (n : SpawnNoise) (epR : ℝ) (m : U.SpawnNoiseU),
      (1e-3 : ℚ) ≤ flooredSpread ep ∧ 0 < flooredSpread ep ∧
        (createFireParticle W H ep n).positionX = W / 2 + flooredSpread ep * n.zX ∧
        (createFireParticle W H ep n).normalizedDistanceFromCenter
          = |(createFireParticle W H ep n).positionX - W / 2| / flooredSpread ep ∧
        (1e-3 : ℝ) ≤ U.flooredSpreadU epR ∧ 0 < U.flooredSpreadU epR ∧
        (U.createFireParticleU epR m).normalizedDistanceFromCenter
          = Real.sqrt ((U.createFireParticleU epR m).positionX ^ 2
              + (U.createFireParticleU epR m).positionZ ^ 2) / U.flooredSpreadU epR := by
  intro W H ep n epR m
  refine ⟨flooredSpread_ge ep, flooredSpread_pos ep, rfl, rfl, le_max_right _ _,
    lt_of_lt_of_le (by norm_num) (le_max_right _ _), ?_⟩
  show Real.sqrt ((0 + U.flooredSpreadU epR * m.zX - 0) ^ 2 + (U.flooredSpreadU epR * m.zZ) ^ 2)
      / U.flooredSpreadU epR
    = Real.sqrt ((0 + U.flooredSpreadU epR * m.zX) ^ 2 + (U.flooredSpreadU epR * m.zZ) ^ 2)
      / U.flooredSpreadU epR
  rw [sub_zero]

/-! ### Claim C2: spawn rate versus capacity, and monotonicity -/

/-- Claim C2: for energy percentages between 10 and 100 the spawn rate
never exceeds the capacity, and both are monotone non-decreasing in the
energy, in the 2D variant (5 + floor(ep/10) against 400 + floor(ep*3)) and
in the 3D variant (10 + floor(e^2*200) against 500 + floor(e^2*5500)). -/
theorem spawnRate_le_capacity_and_monotone :
    ∀ ep ep' : ℚ, 10 ≤ ep → ep ≤ ep' → ep' ≤ 100 →
      spawnPerFrame ep ≤ particleCountCap ep ∧
        spawnPerFrame ep ≤ spawnPerFrame ep' ∧
        particleCountCap ep ≤ particleCountCap ep' ∧
        V3D.spawnRate3D (ep / 100) ≤ V3D.particleCap3D (ep / 100) ∧
        V3D.spawnRate3D (ep / 100) ≤ V3D.spawnRate3D (ep' / 100) ∧
        V3D.particleCap3D (ep / 100) ≤ V3D.particleCap3D (ep' / 100) := by
  intro ep ep' h1 h2 h3
  have he : (0 : ℚ) ≤ ep := by linarith
  have he' : (0 : ℚ) ≤ ep' := by linarith
  have hsq : (ep / 100) ^ 2 ≤ (ep' / 100) ^ 2 := by
    have h4 : ep / 100 ≤ ep' / 100 := by linarith
    have h5 : (0 : ℚ) ≤ ep / 100 := by linarith
    exact pow_le_pow_left₀ h5 h4 2
  have hsq0 : (0 : ℚ) ≤ (ep / 100) ^ 2 := sq_nonneg _
  refine ⟨?_, ?_, ?_, ?_, ?_, ?_⟩
  · have hf : ⌊ep / 10⌋ ≤ ⌊ep * 3⌋ := Int.floor_le_floor (by linarith)
    unfold spawnPerFrame particleCountCap
    linarith
  · have hf : ⌊ep / 10⌋ ≤ ⌊ep' / 10⌋ := Int.floor_le_floor (by linarith)
    unfold spawnPerFrame
    linarith
  · have hf : ⌊ep * 3⌋ ≤ ⌊ep' * 3⌋ := Int.floor_le_floor (by linarith)
    unfold particleCountCap
    linarith
  · have hf : ⌊(ep / 100) ^ 2 * 200⌋ ≤ ⌊(ep / 100) ^ 2 * 5500⌋ :=
      Int.floor_le_floor (by nlinarith)
    unfold V3D.spawnRate3D V3D.particleCap3D
    linarith
  · have hf : ⌊(ep / 100) ^ 2 * 200⌋ ≤ ⌊(ep' / 100) ^ 2 * 200⌋ :=
      Int.floor_le_floor (by nlinarith)
    unfold V3D.spawnRate3D
    linarith
  · have hf : ⌊(ep / 100) ^ 2 * 5500⌋ ≤ ⌊(ep' / 100) ^ 2 * 5500⌋ :=
      Int.floor_le_floor (by nlinarith)
    unfold V3D.particleCap3D
    linarith

/-- Witness for C2 at ep = 10 and ep2 = 100. -/
theorem spawnRate_le_capacity_and_monotone_witness :
    (10 : ℚ) ≤ 10 ∧ (10 : ℚ) ≤ 100 ∧ (100 : ℚ) ≤ 100 ∧
      (spawnPerFrame 10 ≤ particleCountCap 10 ∧
        spawnPerFrame 10 ≤ spawnPerFrame 100 ∧
        particleCountCap 10 ≤ particleCountCap 100 ∧
        V3D.spawnRate3D (10 / 100) ≤ V3D.particleCap3D (10 / 100) ∧
        V3D.spawnRate3D (10 / 100) ≤ V3D.spawnRate3D (100 / 100) ∧
        V3D.particleCap3D (10 / 100) ≤ V3D.particleCap3D (100 / 100)) :=
  ⟨le_refl 10, by norm_num, le_refl 100,
    spawnRate_le_capacity_and_monotone 10 100 (le_refl 10) (by norm_num) (le_refl 100)⟩

/-! ### Color mapper lemmas -/

theorem floor_bounds {x : ℚ} {lo hi : ℤ} (h1 : (lo : ℚ) ≤ x) (h2 : x ≤ (hi : ℚ)) :
    lo ≤ ⌊x⌋ ∧ ⌊x⌋ ≤ hi := by
  refine ⟨Int.le_floor.mpr h1, ?_⟩
  have h3 := Int.floor_le_floor h2
  rwa [Int.floor_intCast] at h3

theorem rgb2D_energy_20 (l : ℝ) :
    (computeParticleColorRGBA l 20).r = 237 ∧ (computeParticleColorRGBA l 20).g = 130 ∧
      (computeParticleColorRGBA l 20).b = 20 := by
  unfold computeParticleColorRGBA
  rw [if_neg (by norm_num), if_neg (by norm_num)]
  refine ⟨?_, ?_, ?_⟩ <;> norm_num [Int.floor_eq_iff]

theorem alpha2D_range (l : ℝ) (h0 : 0 ≤ l) (h1 : l ≤ 1) :
    0 ≤ l ^ (0.7 : ℝ) * 0.9 ∧ l ^ (0.7 : ℝ) * 0.9 ≤ 1 := by
  have ha := Real.rpow_nonneg h0 (0.7 : ℝ)
  have hb := Real.rpow_le_one h0 h1 (by norm_num : (0 : ℝ) ≤ 0.7)
  constructor
  · nlinarith
  · nlinarith

theorem V3D.baseColor3D_nonneg (l : ℝ) (h0 : 0 ≤ l) (h1 : l ≤ 1) :
    0 ≤ (V3D.baseColor3D l).r ∧ 0 ≤ (V3D.baseColor3D l).g ∧ 0 ≤ (V3D.baseColor3D l).b := by
  unfold V3D.baseColor3D
  split_ifs with hA hB hC
  · refine ⟨by norm_num, by norm_num, ?_⟩
    dsimp only
    ring_nf
    linarith
  · refine ⟨by norm_num, ?_, ?_⟩ <;> dsimp only <;> ring_nf <;> linarith
  · refine ⟨by norm_num, ?_, by norm_num⟩
    dsimp only
    ring_nf
    linarith
  · push_neg at hA hB hC
    refine ⟨?_, ?_, by norm_num⟩ <;> dsimp only <;> ring_nf <;> linarith

theorem brightness3D_range (l e : ℝ) (h0 : 0 ≤ l) (h1 : l ≤ 1) (he0 : 0 ≤ e) (he1 : e ≤ 1) :
    0 ≤ l ^ (0.5 : ℝ) * (0.3 + e ^ (1.5 : ℝ) * 0.7) ∧
      l ^ (0.5 : ℝ) * (0.3 + e ^ (1.5 : ℝ) * 0.7) ≤ 1 := by
  have ha0 := Real.rpow_nonneg h0 (0.5 : ℝ)
  have ha1 := Real.rpow_le_one h0 h1 (by norm_num : (0 : ℝ) ≤ 0.5)
  have hb0 := Real.rpow_nonneg he0 (1.5 : ℝ)
  have hb1 := Real.rpow_le_one he0 he1 (by norm_num : (0 : ℝ) ≤ 1.5)
  constructor
  · nlinarith
  · nlinarith

theorem channel3D_range (base extra l e : ℝ) (hb : 0 ≤ base) (hx : 0 ≤ extra)
    (h0 : 0 ≤ l) (h1 : l ≤ 1) (he0 : 0 ≤ e) (he1 : e ≤ 1) :
    0 ≤ min 1 (base + extra) * (l ^ (0.5 : ℝ) * (0.3 + e ^ (1.5 : ℝ) * 0.7)) ∧
      min 1 (base + extra) * (l ^ (0.5 : ℝ) * (0.3 + e ^ (1.5 : ℝ) * 0.7)) ≤ 1 := by
  obtain ⟨hf0, hf1⟩ := brightness3D_range l e h0 h1 he0 he1
  have hm0 : 0 ≤ min 1 (base + extra) := le_min (by norm_num) (by linarith)
  have hm1 : min 1 (base + extra) ≤ 1 := min_le_left _ _
  constructor
  · exact mul_nonneg hm0 hf0
  · nlinarith

/-! ### Claim C3 (corrected): color banding on lifeFraction -/

/-- Counterexample to C3 as stated: in the 2D variant the r, g, b channels
of computeParticleColorRGBA do not depend on lifeFraction at all: at
energyPercent 20 a freshest particle (lifeFraction 1) and a dead one
(lifeFraction 0) receive the identical RGB (237, 130, 20), which is not
near-white/bright-yellow. -/
theorem rgb2D_independent_of_lifeFraction :
    (computeParticleColorRGBA 1 20).r = (computeParticleColorRGBA 0 20).r ∧
      (computeParticleColorRGBA 1 20).g = (computeParticleColorRGBA 0 20).g ∧
      (computeParticleColorRGBA 1 20).b = (computeParticleColorRGBA 0 20).b ∧
      (computeParticleColorRGBA 1 20).r = 237 ∧
      (computeParticleColorRGBA 1 20).g = 130 := by
  obtain ⟨h1r, h1g, h1b⟩ := rgb2D_energy_20 1
  obtain ⟨h0r, h0g, h0b⟩ := rgb2D_energy_20 0
  exact ⟨h1r.trans h0r.symm, h1g.trans h0g.symm, h1b.trans h0b.symm, h1r, h1g⟩

/-- Claim C3 (amended): the life-banded monotone piecewise-linear palette
holds for the base color of the 3D variant (near-white/bright-yellow above
0.9, yellow to orange above 0.7, orange to red above 0.4, red below, and
the full 3D color fades to black at lifeFraction 0); in the 2D variant the
RGB channels are a function of the energy scalar only, independent of
lifeFraction. -/
theorem color_bands_corrected :
    (∀ (l l' : ℝ) (ep : ℚ),
        (computeParticleColorRGBA l ep).r = (computeParticleColorRGBA l' ep).r ∧
          (computeParticleColorRGBA l ep).g = (computeParticleColorRGBA l' ep).g ∧
          (computeParticleColorRGBA l ep).b = (computeParticleColorRGBA l' ep).b) ∧
      (∀ life : ℝ, 0 ≤ life → life ≤ 1 →
        (0.9 < life →
            (V3D.baseColor3D life).r = 1 ∧ (V3D.baseColor3D life).g = 1 ∧
              0.8 ≤ (V3D.baseColor3D life).b ∧ (V3D.baseColor3D life).b ≤ 1) ∧
          (0.7 < life → life ≤ 0.9 →
            (V3D.baseColor3D life).r = 1 ∧ 0.6 ≤ (V3D.baseColor3D life).g ∧
              (V3D.baseColor3D life).g < 1 ∧ 0 ≤ (V3D.baseColor3D life).b ∧
              (V3D.baseColor3D life).b < 0.8) ∧
          (0.4 < life → life ≤ 0.7 →
            (V3D.baseColor3D life).r = 1 ∧ 0.2 ≤ (V3D.baseColor3D life).g ∧
              (V3D.baseColor3D life).g < 0.6 ∧ (V3D.baseColor3D life).b = 0) ∧
          (life ≤ 0.4 →
            0.5 ≤ (V3D.baseColor3D life).r ∧ (V3D.baseColor3D life).r ≤ 1 ∧
              0 ≤ (V3D.baseColor3D life).g ∧ (V3D.baseColor3D life).g ≤ 0.2 ∧
              (V3D.baseColor3D life).b = 0)) ∧
      (∀ e : ℝ, V3D.updateParticleColor 0 e = (⟨0, 0, 0⟩ : V3D.RGB3)) := by
  refine ⟨?_, ?_, ?_⟩
  · intro l l' ep
    unfold computeParticleColorRGBA
    split_ifs <;> exact ⟨rfl, rfl, rfl⟩
  · intro life h0 h1
    refine ⟨fun hb => ?_, fun hb1 hb2 => ?_, fun hb1 hb2 => ?_, fun hb => ?_⟩
    · unfold V3D.baseColor3D
      rw [if_pos hb]
      refine ⟨rfl, rfl, ?_, ?_⟩ <;> dsimp only <;> ring_nf <;> linarith
    · unfold V3D.baseColor3D
      rw [if_neg (not_lt.mpr hb2), if_pos hb1]
      refine ⟨rfl, ?_, ?_, ?_, ?_⟩ <;> dsimp only <;> ring_nf <;> linarith
    · unfold V3D.baseColor3D
      rw [if_neg (not_lt.mpr (by linarith : life ≤ 0.9)), if_neg (not_lt.mpr hb2), if_pos hb1]
      refine ⟨rfl, ?_, ?_, rfl⟩ <;> dsimp only <;> ring_nf <;> linarith
    · unfold V3D.baseColor3D
      rw [if_neg (not_lt.mpr (by linarith : life ≤ 0.9)),
        if_neg (not_lt.mpr (by linarith : life ≤ 0.7)), if_neg (not_lt.mpr hb)]
      refine ⟨?_, ?_, ?_, ?_, rfl⟩ <;> dsimp only <;> ring_nf <;> linarith
  · intro e
    have hz : (0 : ℝ) ^ (0.5 : ℝ) = 0 := Real.zero_rpow (by norm_num)
    simp [V3D.updateParticleColor, hz]

/-- Witness for the amended C3 in the first band, at lifeFraction 0.95. -/
theorem color_bands_corrected_witness :
    (V3D.baseColor3D 0.95).r = 1 ∧ (V3D.baseColor3D 0.95).g = 1 ∧
      0.8 ≤ (V3D.baseColor3D 0.95).b ∧ (V3D.baseColor3D 0.95).b ≤ 1 :=
  (color_bands_corrected.2.1 0.95 (by norm_num) (by norm_num)).1 (by norm_num)

/-! ### Claim C7: purity and channel ranges of the color mappers -/

/-- Claim C7: both color mappers are pure functions of their inputs (equal
inputs give equal outputs, there is no hidden state in the embedding), and
on valid inputs every output channel is in range: 8-bit integer channels
in 0..255 and alpha in the unit interval for the 2D variant, normalized
channels in the unit interval for the 3D variant. -/
theorem colorMapper_pure_and_in_range :
    (∀ (l1 l2 : ℝ) (e1 e2 : ℚ), l1 = l2 → e1 = e2 →
        computeParticleColorRGBA l1 e1 = computeParticleColorRGBA l2 e2) ∧
      (∀ l1 l2 e1 e2 : ℝ, l1 = l2 → e1 = e2 →
        V3D.updateParticleColor l1 e1 = V3D.updateParticleColor l2 e2) ∧
      (∀ (l : ℝ) (ep : ℚ), 0 ≤ l → l ≤ 1 → 10 ≤ ep → ep ≤ 100 →
        (0 ≤ (computeParticleColorRGBA l ep).r ∧ (computeParticleColorRGBA l ep).r ≤ 255) ∧
          (0 ≤ (computeParticleColorRGBA l ep).g ∧ (computeParticleColorRGBA l ep).g ≤ 255) ∧
          (0 ≤ (computeParticleColorRGBA l ep).b ∧ (computeParticleColorRGBA l ep).b ≤ 255) ∧
          (0 ≤ (computeParticleColorRGBA l ep).a ∧ (computeParticleColorRGBA l ep).a ≤ 1)) ∧
      (∀ l e : ℝ, 0 ≤ l → l ≤ 1 → 0 ≤ e → e ≤ 1 →
        (0 ≤ (V3D.updateParticleColor l e).r ∧ (V3D.updateParticleColor l e).r ≤ 1) ∧
          (0 ≤ (V3D.updateParticleColor l e).g ∧ (V3D.updateParticleColor l e).g ≤ 1) ∧
          (0 ≤ (V3D.updateParticleColor l e).b ∧ (V3D.updateParticleColor l e).b ≤ 1)) := by
  refine ⟨?_, ?_, ?_, ?_⟩
  · intro l1 l2 e1 e2 hl he; rw [hl, he]
  · intro l1 l2 e1 e2 hl he; rw [hl, he]
  · intro l ep h0 h1 hep1 hep2
    have he1 : (0.1 : ℚ) ≤ ep / 100 := by linarith
    have he2 : ep / 100 ≤ 1 := by linarith
    unfold computeParticleColorRGBA
    split_ifs with hA hB
    · exact ⟨floor_bounds (by push_cast; ring_nf; linarith) (by push_cast; ring_nf; linarith),
        floor_bounds (by push_cast; ring_nf; linarith) (by push_cast; ring_nf; linarith),
        floor_bounds (by push_cast; norm_num) (by push_cast; norm_num),
        alpha2D_range l h0 h1⟩
    · exact ⟨floor_bounds (by push_cast; norm_num) (by push_cast; norm_num),
        floor_bounds (by push_cast; ring_nf; linarith) (by push_cast; ring_nf; linarith),
        floor_bounds (by push_cast; ring_nf; linarith) (by push_cast; ring_nf; linarith),
        alpha2D_range l h0 h1⟩
    · push_neg at hA hB
      exact ⟨floor_bounds (by push_cast; ring_nf; linarith) (by push_cast; ring_nf; linarith),
        floor_bounds (by push_cast; ring_nf; linarith) (by push_cast; ring_nf; linarith),
        floor_bounds (by push_cast; ring_nf; linarith) (by push_cast; ring_nf; linarith),
        alpha2D_range l h0 h1⟩
  · intro l e h0 h1 he0 he1
    obtain ⟨hr, hg, hb⟩ := V3D.baseColor3D_nonneg l h0 h1
    have hx1 : 0 ≤ e ^ (1.5 : ℝ) * 1.5 * l * 0.2 := by
      have := Real.rpow_nonneg he0 (1.5 : ℝ)
      nlinarith
    have hx2 : 0 ≤ e ^ (1.5 : ℝ) * 1.5 * l * 1.0 := by
      have := Real.rpow_nonneg he0 (1.5 : ℝ)
      nlinarith
    exact ⟨channel3D_range _ _ l e hr hx1 h0 h1 he0 he1,
      channel3D_range _ _ l e hg hx1 h0 h1 he0 he1,
      channel3D_range _ _ l e hb hx2 h0 h1 he0 he1⟩

/-- Witness for C7 at lifeFraction 1 with energyPercent 50 (2D) and
energyScalar 1 (3D). -/
theorem colorMapper_pure_and_in_range_witness :
    ((0 ≤ (computeParticleColorRGBA 1 50).r ∧ (computeParticleColorRGBA 1 50).r ≤ 255) ∧
        (0 ≤ (computeParticleColorRGBA 1 50).g ∧ (computeParticleColorRGBA 1 50).g ≤ 255) ∧
        (0 ≤ (computeParticleColorRGBA 1 50).b ∧ (computeParticleColorRGBA 1 50).b ≤ 255) ∧
        (0 ≤ (computeParticleColorRGBA 1 50).a ∧ (computeParticleColorRGBA 1 50).a ≤ 1)) ∧
      ((0 ≤ (V3D.updateParticleColor 1 1).r ∧ (V3D.updateParticleColor 1 1).r ≤ 1) ∧
        (0 ≤ (V3D.updateParticleColor 1 1).g ∧ (V3D.updateParticleColor 1 1).g ≤ 1) ∧
        (0 ≤ (V3D.updateParticleColor 1 1).b ∧ (V3D.updateParticleColor 1 1).b ≤ 1)) :=
  ⟨colorMapper_pure_and_in_range.2.2.1 1 50 (by norm_num) (by norm_num) (by norm_num) (by norm_num),
    colorMapper_pure_and_in_range.2.2.2 1 1 (by norm_num) (by norm_num) (by norm_num) (by norm_num)⟩

/-! ### Edge spawn facts -/

theorem edge_nd : normalizedDistanceOf 800 100 edgeSpawn = 3 := by
  unfold normalizedDistanceOf spawnXOf
  rw [flooredSpread_100]
  rw [show (800 : ℚ) / 2 + 15 * edgeSpawn.zX - 800 / 2 = 45 by norm_num [edgeSpawn]]
  rw [show |(45 : ℚ)| = 45 from abs_of_nonneg (by norm_num)]
  norm_num

theorem edge_bonus : burstEnergyBonus edgeSpawn = 0 := by
  unfold burstEnergyBonus
  rw [if_neg (by norm_num [edgeSpawn])]

theorem edgeParticle_init : edgeParticle.initialEnergy = 0 := by
  show initialEnergyOf 800 100 edgeSpawn = 0
  unfold initialEnergyOf centerEnergyBias
  rw [edge_nd, edge_bonus]
  rw [show max (0 : ℚ) (1 - 3 * 0.4 + 0) = 0 from max_eq_left (by norm_num)]
  ring

theorem edgeParticle_rem : edgeParticle.remainingEnergy = 0 := edgeParticle_init

theorem edgeParticle_nd : edgeParticle.normalizedDistanceFromCenter = 3 := edge_nd

theorem edge_culled : onScreen 800 (updateParticle 800 100 calmTick edgeParticle) = false := by
  have hloss : 0 < energyLoss 100 edgeParticle :=
    energyLoss_pos 100 edgeParticle (by norm_num) (by rw [edgeParticle_nd]; norm_num)
  have hnot : ¬ (0 < (updateParticle 800 100 calmTick edgeParticle).remainingEnergy) := by
    rw [update_rem, edgeParticle_rem]
    linarith
  simp [onScreen, hnot]

/-! ### Claim C1 (corrected): live-collection invariants -/

/-- Counterexample to C1 as stated: the factory can output a live particle
with remainingEnergy = 0 (its centerEnergyBias is exactly 0 at 3 spreads
from the center without a burst), and the spawn phase pushes it into the
live collection, where it sits with lifeFraction 1 and zero energy until
the cull of its first tick. -/
theorem zero_energy_fresh_particle_in_collection :
    edgeParticle ∈ spawnLoop 800 600 100 (fun _ => edgeSpawn) 0 (spawnPerFrame 100).toNat [] ∧
      edgeParticle.remainingEnergy = 0 ∧ edgeParticle.initialEnergy = 0 ∧
      edgeParticle.lifeFraction = 1 := by
  refine ⟨?_, edgeParticle_rem, edgeParticle_init, rfl⟩
  rw [spawnPerFrame_100,
    spawnLoop_eq_append 800 600 100 (fun _ => edgeSpawn) 15 0 []
      (by rw [particleCountCap_100]; norm_num),
    List.nil_append]
  exact List.mem_map.mpr ⟨0, by simp, rfl⟩

theorem tick_preserves_inv (W H ep : ℚ) (sn : ℕ → SpawnNoise) (tn : ℕ → TickNoise)
    (ps : List FireParticle) (h2 : ep ≤ 100) (hps : ∀ p ∈ ps, InvP p) :
    ∀ q ∈ tick W H ep sn tn ps, InvP q := by
  intro q hq
  unfold tick at hq
  obtain ⟨hmem, hon⟩ := List.mem_filter.mp hq
  obtain ⟨j, p, hp, rfl⟩ := mem_updateAll W ep tn _ 0 q hmem
  have hon2 := (onScreen_true_iff W _).mp hon
  have hq_rem : 0 < p.remainingEnergy - energyLoss ep p := by
    have := hon2.1
    rwa [update_rem] at this
  have hple : p.remainingEnergy ≤ p.initialEnergy ∧ 0 ≤ p.normalizedDistanceFromCenter := by
    rcases mem_spawnLoop W H ep sn _ 0 ps p hp with hold | ⟨j2, rfl⟩
    · obtain ⟨-, ha, hb, -, -⟩ := hps p hold
      exact ⟨ha, hb⟩
    · exact ⟨le_of_eq (create_rem_eq_init W H ep (sn j2)), create_nd_nonneg W H ep (sn j2)⟩
  have hloss : 0 < energyLoss ep p := energyLoss_pos ep p h2 hple.2
  have hinit : 0 < p.initialEnergy := by linarith [hple.1]
  refine ⟨?_, ?_, ?_, ?_, ?_⟩
  · rw [update_rem]; exact hq_rem
  · rw [update_rem, update_init]; linarith [hple.1]
  · rw [update_nd]; exact hple.2
  · rw [update_life]; exact le_max_left 0 _
  · rw [update_life]
    refine max_le (by norm_num) ?_
    rw [div_le_one hinit]
    linarith [hple.1]

theorem simulate_inv (W H ep : ℚ) (sn : ℕ → ℕ → SpawnNoise) (tn : ℕ → ℕ → TickNoise)
    (h2 : ep ≤ 100) : ∀ t q, q ∈ simulate W H ep sn tn t → InvP q := by
  intro t
  induction t with
  | zero =>
    intro q hq
    exact absurd hq (List.not_mem_nil q)
  | succ t ih =>
    intro q hq
    rw [simulate] at hq
    exact tick_preserves_inv W H ep (sn t) (tn t) _ h2 ih q hq

/-- Claim C1 (amended): at every tick boundary (any number of full ticks
from the empty collection, any oracle draws, energy within 10..100) every
particle of the live collection has positive remaining energy and a life
fraction in the unit interval; moreover a particle whose recomputed
lifeFraction is 0 fails the liveness test and is removed by the cull of
that same tick.  (As stated the claim is refuted by the transient
zero-energy fresh particle of the counterexample.) -/
theorem live_collection_invariants (W H ep : ℚ) (sn : ℕ → ℕ → SpawnNoise)
    (tn : ℕ → ℕ → TickNoise) (h1 : 10 ≤ ep) (h2 : ep ≤ 100) :
    (∀ t q, q ∈ simulate W H ep sn tn t →
        0 < q.remainingEnergy ∧ 0 ≤ q.lifeFraction ∧ q.lifeFraction ≤ 1) ∧
      (∀ (n : TickNoise) (p : FireParticle), 0 < p.initialEnergy →
        (updateParticle W ep n p).lifeFraction = 0 →
        onScreen W (updateParticle W ep n p) = false) := by
  constructor
  · intro t q hq
    obtain ⟨a, b, c, d, e⟩ := simulate_inv W H ep sn tn h2 t q hq
    exact ⟨a, d, e⟩
  · intro n p hpi hl
    rw [update_life] at hl
    have hdiv : (p.remainingEnergy - energyLoss ep p) / p.initialEnergy ≤ 0 := by
      by_contra hcon
      push_neg at hcon
      rw [max_eq_right (le_of_lt hcon)] at hl
      linarith
    have hrem : p.remainingEnergy - energyLoss ep p ≤ 0 := by
      by_contra hcon
      push_neg at hcon
      have := div_pos hcon hpi
      linarith
    have hnot : ¬ (0 < (updateParticle W ep n p).remainingEnergy) := by
      rw [update_rem]
      linarith
    simp [onScreen, hnot]

/-- Witness for the amended C1 on the canonical full-energy run. -/
theorem live_collection_invariants_witness :
    (10 : ℚ) ≤ 100 ∧ (100 : ℚ) ≤ 100 ∧
      ((∀ t q, q ∈ simulate 800 600 100 (fun _ _ => calmSpawn) (fun _ _ => calmTick) t →
          0 < q.remainingEnergy ∧ 0 ≤ q.lifeFraction ∧ q.lifeFraction ≤ 1) ∧
        (∀ (n : TickNoise) (p : FireParticle), 0 < p.initialEnergy →
          (updateParticle 800 100 n p).lifeFraction = 0 →
          onScreen 800 (updateParticle 800 100 n p) = false)) :=
  ⟨by norm_num, le_refl 100,
    live_collection_invariants 800 600 100 (fun _ _ => calmSpawn) (fun _ _ => calmTick)
      (by norm_num) (le_refl 100)⟩

/-! ### Claim C4 (corrected): burst particles decay more slowly -/

theorem updateN_burst (W ep : ℚ) (tn : ℕ → TickNoise) :
    ∀ (k : ℕ) (p : FireParticle),
      (updateN W ep tn k p).receivedBurstEnergy = p.receivedBurstEnergy := by
  intro k
  induction k with
  | zero => intro p; rfl
  | succ k ih =>
    intro p
    rw [updateN, update_burst, ih]

theorem updateN_nd (W ep : ℚ) (tn : ℕ → TickNoise) :
    ∀ (k : ℕ) (p : FireParticle),
      (updateN W ep tn k p).normalizedDistanceFromCenter = p.normalizedDistanceFromCenter := by
  intro k
  induction k with
  | zero => intro p; rfl
  | succ k ih =>
    intro p
    rw [updateN, update_nd, ih]

theorem updateN_rem (W ep : ℚ) (tn : ℕ → TickNoise) :
    ∀ (k : ℕ) (p : FireParticle),
      (updateN W ep tn k p).remainingEnergy
        = p.remainingEnergy - (k : ℚ) * energyLoss ep p := by
  intro k
  induction k with
  | zero =>
    intro p
    show p.remainingEnergy = p.remainingEnergy - ((0 : ℕ) : ℚ) * energyLoss ep p
    push_cast
    ring
  | succ k ih =>
    intro p
    rw [updateN, update_rem, ih]
    have hsame : energyLoss ep (updateN W ep tn k p) = energyLoss ep p := by
      unfold energyLoss
      rw [updateN_burst, updateN_nd]
    rw [hsame]
    push_cast
    ring

/-- Counterexample to C4 as stated: at normalizedDistanceFromCenter 0 the
edge penalty vanishes, so a burst particle and an otherwise identical
non-burst particle lose exactly the same energy and the burst particle
does not end strictly higher. -/
theorem burst_decay_equal_at_center :
    (updateN 800 100 (fun _ => calmTick) 1 pBurstCenter).remainingEnergy
        = (updateN 800 100 (fun _ => calmTick) 1 pPlainCenter).remainingEnergy ∧
      pBurstCenter.receivedBurstEnergy = true ∧ pPlainCenter.receivedBurstEnergy = false ∧
      pBurstCenter.normalizedDistanceFromCenter = pPlainCenter.normalizedDistanceFromCenter ∧
      pBurstCenter.initialEnergy = pPlainCenter.initialEnergy ∧
      pBurstCenter.remainingEnergy = pPlainCenter.remainingEnergy := by
  refine ⟨?_, rfl, rfl, rfl, rfl, rfl⟩
  rw [updateN_rem, updateN_rem]
  have h1 : energyLoss 100 pBurstCenter = 0.8 := by
    unfold energyLoss
    norm_num [pBurstCenter]
  have h2 : energyLoss 100 pPlainCenter = 0.8 := by
    unfold energyLoss
    norm_num [pPlainCenter]
  rw [h1, h2]
  norm_num [pBurstCenter, pPlainCenter]

/-- Claim C4 (amended): for particles strictly away from the center line
(positive normalizedDistanceFromCenter), the burst particle decays
strictly slower: after any positive number of identical ticks at the same
energy its remaining energy is strictly higher than that of the non-burst
particle with the same distance, initial and remaining energy. -/
theorem burst_decays_strictly_slower_away_from_center :
    ∀ (W ep : ℚ) (tn : ℕ → TickNoise) (pb pn : FireParticle) (N : ℕ),
      ep ≤ 100 →
      pb.receivedBurstEnergy = true → pn.receivedBurstEnergy = false →
      pb.normalizedDistanceFromCenter = pn.normalizedDistanceFromCenter →
      0 < pn.normalizedDistanceFromCenter →
      pb.initialEnergy = pn.initialEnergy →
      pb.remainingEnergy = pn.remainingEnergy →
      1 ≤ N →
      (updateN W ep tn N pn).remainingEnergy < (updateN W ep tn N pb).remainingEnergy := by
  intro W ep tn pb pn N h2 hb hn hnd hpos hin hrem hN
  rw [updateN_rem, updateN_rem, hrem]
  have hlb : energyLoss ep pb = 0.8 + (1 - ep / 100) * 1.2 := by
    unfold energyLoss
    rw [hb]
    norm_num
  have hln : energyLoss ep pn
      = (0.8 + (1 - ep / 100) * 1.2) * (1 + pn.normalizedDistanceFromCenter * 0.3) := by
    unfold energyLoss
    rw [hn]
    norm_num
  have hbpos : (0 : ℚ) < 0.8 + (1 - ep / 100) * 1.2 := by
    ring_nf
    linarith
  have hNq : (1 : ℚ) ≤ (N : ℚ) := by exact_mod_cast hN
  rw [hlb, hln]
  have key : (N : ℚ) * (0.8 + (1 - ep / 100) * 1.2)
      < (N : ℚ) * ((0.8 + (1 - ep / 100) * 1.2) * (1 + pn.normalizedDistanceFromCenter * 0.3)) := by
    have hprod : (0 : ℚ) < (N : ℚ) * ((0.8 + (1 - ep / 100) * 1.2)
        * pn.normalizedDistanceFromCenter) :=
      mul_pos (lt_of_lt_of_le zero_lt_one hNq) (mul_pos hbpos hpos)
    nlinarith
  linarith

/-- Witness for the amended C4 at distance 1 after one tick. -/
theorem burst_decays_strictly_slower_away_from_center_witness :
    (100 : ℚ) ≤ 100 ∧ pBurstEdge.receivedBurstEnergy = true ∧
      pPlainEdge.receivedBurstEnergy = false ∧
      pBurstEdge.normalizedDistanceFromCenter = pPlainEdge.normalizedDistanceFromCenter ∧
      0 < pPlainEdge.normalizedDistanceFromCenter ∧
      pBurstEdge.initialEnergy = pPlainEdge.initialEnergy ∧
      pBurstEdge.remainingEnergy = pPlainEdge.remainingEnergy ∧ 1 ≤ 1 ∧
      (updateN 800 100 (fun _ => calmTick) 1 pPlainEdge).remainingEnergy
        < (updateN 800 100 (fun _ => calmTick) 1 pBurstEdge).remainingEnergy :=
  ⟨le_refl 100, rfl, rfl, rfl, by norm_num [pPlainEdge], rfl, rfl, le_refl 1,
    burst_decays_strictly_slower_away_from_center 800 100 (fun _ => calmTick) pBurstEdge
      pPlainEdge 1 (le_refl 100) rfl rfl rfl (by norm_num [pPlainEdge]) rfl rfl (le_refl 1)⟩

/-! ### Claim C5 (corrected): early population counts -/

theorem map_mixed_15 :
    (List.range 15).map (fun j => createFireParticle 800 600 100 (mixedSn 0 (0 + j)))
      = createFireParticle 800 600 100 edgeSpawn :: List.replicate 14 calmParticle := rfl

theorem mixedRun_one :
    mixedRun 1
      = ((createFireParticle 800 600 100 edgeSpawn :: List.replicate 14 calmParticle).map
          (updateParticle 800 100 calmTick)).filter (onScreen 800) := by
  show tick 800 600 100 (mixedSn 0) (fun _ => calmTick) [] = _
  unfold tick
  rw [spawnPerFrame_100,
    spawnLoop_eq_append 800 600 100 (mixedSn 0) 15 0 []
      (by rw [particleCountCap_100]; norm_num),
    List.nil_append, map_mixed_15, updateAll_const]

/-- Counterexample to C5 as stated: in the very first tick from the empty
collection at energyPercent 100 the spawn phase draws one zero-energy edge
particle, which is culled within its spawn tick, so the population after
tick 1 is 14, not 1 * spawnPerFrame = 15. -/
theorem first_tick_population_below_spawnRate :
    (mixedRun 1).length = 14 ∧ (mixedRun 1).length ≠ 15 * 1 := by
  have h : mixedRun 1 = List.replicate 14 (updateParticle 800 100 calmTick calmParticle) := by
    rw [mixedRun_one, List.map_cons, List.map_replicate, List.filter_cons]
    rw [show onScreen 800 (updateParticle 800 100 calmTick
        (createFireParticle 800 600 100 edgeSpawn)) = false from edge_culled]
    rw [if_neg (by simp)]
    exact List.filter_eq_self.mpr (by
      intro a ha
      rw [List.eq_of_mem_replicate ha]
      exact (canon_step 0 calmParticle (calmParticle_canonInv 0) (by norm_num)).2)
  rw [h, List.length_replicate]
  norm_num

/-- Claim C5 (amended): when every spawned particle survives its first
ticks (center spawns with full center bias, as in the canonical run), the
population after tick t from the empty collection at energyPercent 100 is
exactly t * 15 for all t up to 46 (before the cap is reached and long
before any particle can die). -/
theorem early_population_exact_when_spawns_survive :
    ∀ t : ℕ, t ≤ 46 → (canonicalRun t).length = 15 * t :=
  fun t ht => (canonical_inv t ht).1

/-- Witness for the amended C5 after three ticks. -/
theorem early_population_exact_when_spawns_survive_witness :
    3 ≤ 46 ∧ (canonicalRun 3).length = 15 * 3 :=
  ⟨by norm_num, early_population_exact_when_spawns_survive 3 (by norm_num)⟩

/-! ### Claim C8: culling outside the margin -/

/-- Claim C8: every particle emitted (drawn) by a tick lies inside the
30 pixel margin: positionY above -30, positionX between -30 and canvas
width + 30; contrapositively a particle whose updated position left the
margin is never in the emit output of that tick, whatever its life
fraction. -/
theorem emit_only_within_margin :
    ∀ (W H ep : ℚ) (sn : ℕ → SpawnNoise) (tn : ℕ → TickNoise) (ps : List FireParticle)
      (q : FireParticle), q ∈ tick W H ep sn tn ps →
      -30 < q.positionY ∧ -30 < q.positionX ∧ q.positionX < W + 30 := by
  intro W H ep sn tn ps q hq
  unfold tick at hq
  obtain ⟨-, hon⟩ := List.mem_filter.mp hq
  obtain ⟨-, h2, h3, h4⟩ := (onScreen_true_iff W q).mp hon
  exact ⟨h2, h3, h4⟩

theorem canonicalRun_one :
    canonicalRun 1 = List.replicate 15 (updateParticle 800 100 calmTick calmParticle) := by
  have h1 : spawnLoop 800 600 100 (fun _ => calmSpawn) 0 15 ([] : List FireParticle)
      = List.replicate 15 calmParticle := by
    rw [spawnLoop_eq_append 800 600 100 (fun _ => calmSpawn) 15 0 []
      (by rw [particleCountCap_100]; norm_num)]
    rfl
  show tick 800 600 100 (fun _ => calmSpawn) (fun _ => calmTick) [] = _
  unfold tick
  rw [spawnPerFrame_100, h1, updateAll_const, List.map_replicate]
  exact List.filter_eq_self.mpr (by
    intro a ha
    rw [List.eq_of_mem_replicate ha]
    exact (canon_step 0 calmParticle (calmParticle_canonInv 0) (by norm_num)).2)

/-- Witness for C8: a surviving particle of the first canonical tick is in
the emit output and inside the margin. -/
theorem emit_only_within_margin_witness :
    (updateParticle 800 100 calmTick calmParticle
        ∈ tick 800 600 100 (fun _ => calmSpawn) (fun _ => calmTick) []) ∧
      (-30 < (updateParticle 800 100 calmTick calmParticle).positionY ∧
        -30 < (updateParticle 800 100 calmTick calmParticle).positionX ∧
        (updateParticle 800 100 calmTick calmParticle).positionX < 800 + 30) := by
  have hm : updateParticle 800 100 calmTick calmParticle
      ∈ tick 800 600 100 (fun _ => calmSpawn) (fun _ => calmTick) [] := by
    rw [show tick 800 600 100 (fun _ => calmSpawn) (fun _ => calmTick) []
        = canonicalRun 1 from rfl, canonicalRun_one]
    exact List.mem_replicate.mpr ⟨by norm_num, rfl⟩
  exact ⟨hm, emit_only_within_margin 800 600 100 _ _ [] _ hm⟩

/-! ### Claim C10: 3D buffer bounds -/

theorem spawnLoop3_length_le (e : ℚ) (sn : ℕ → V3D.Spawn3Noise) :
    ∀ (k i : ℕ) (ps : List V3D.Particle3), ps.length ≤ V3D.MAX_PARTICLES →
      (V3D.spawnLoop3 e sn i k ps).length ≤ V3D.MAX_PARTICLES := by
  intro k
  induction k with
  | zero =>
    intro i ps h
    rw [V3D.spawnLoop3]
    exact h
  | succ k ih =>
    intro i ps h
    rw [V3D.spawnLoop3]
    apply ih
    split_ifs with hg
    · rw [List.length_append, List.length_singleton]
      omega
    · exact h

theorem updateAll3_length_le (e : ℚ) (delta : ℝ) (tn : ℕ → V3D.Tick3Noise) :
    ∀ (l : List V3D.Particle3) (i : ℕ), (V3D.updateAll3 e delta tn i l).length ≤ l.length := by
  intro l
  induction l with
  | nil =>
    intro i
    rw [V3D.updateAll3]
  | cons p rest ih =>
    intro i
    rw [V3D.updateAll3]
    cases hu : V3D.update3D e delta (tn i) p with
    | none =>
      rw [Option.elim_none]
      calc (V3D.updateAll3 e delta tn (i + 1) rest).length ≤ rest.length := ih (i + 1)
        _ ≤ (p :: rest).length := by rw [List.length_cons]; omega
    | some q =>
      rw [Option.elim_some, List.length_cons, List.length_cons]
      exact Nat.succ_le_succ (ih (i + 1))

/-- Claim C10: starting from any collection within the buffer size, one 3D
frame keeps the collection within MAX_PARTICLES: the cap- and
MAX-gated spawn loop never pushes past MAX_PARTICLES, the surviving
particle count (which is both the number of buffer writes and the draw
range) is at most MAX_PARTICLES, and every write offset particleIndex * 3
+ channel stays below 3 * MAX_PARTICLES, the length of the position and
color Float32Array buffers. -/
theorem buffer_writes_in_bounds :
    ∀ (ep : ℚ) (delta : ℝ) (sn : ℕ → V3D.Spawn3Noise) (tn : ℕ → V3D.Tick3Noise)
      (ps : List V3D.Particle3), ps.length ≤ V3D.MAX_PARTICLES →
      (V3D.spawnLoop3 (ep / 100) sn 0 (V3D.spawnRate3D (ep / 100)).toNat ps).length
          ≤ V3D.MAX_PARTICLES ∧
        (V3D.frame3D ep delta sn tn ps).length ≤ V3D.MAX_PARTICLES ∧
        ∀ i < (V3D.frame3D ep delta sn tn ps).length, 3 * i + 2 < 3 * V3D.MAX_PARTICLES := by
  intro ep delta sn tn ps h
  have hs := spawnLoop3_length_le (ep / 100) sn (V3D.spawnRate3D (ep / 100)).toNat 0 ps h
  have hu := updateAll3_length_le (ep / 100) delta tn
    (V3D.spawnLoop3 (ep / 100) sn 0 (V3D.spawnRate3D (ep / 100)).toNat ps) 0
  have hf : (V3D.frame3D ep delta sn tn ps).length ≤ V3D.MAX_PARTICLES := le_trans hu hs
  refine ⟨hs, hf, ?_⟩
  intro i hi
  have h6 : i < V3D.MAX_PARTICLES := lt_of_lt_of_le hi hf
  unfold V3D.MAX_PARTICLES at h6 ⊢
  omega

/-- Witness for C10 on the empty collection at full energy. -/
theorem buffer_writes_in_bounds_witness :
    ([] : List V3D.Particle3).length ≤ V3D.MAX_PARTICLES ∧
      ((V3D.spawnLoop3 ((100 : ℚ) / 100) (fun _ => ⟨0, 0, 0, 0, 0, 0⟩) 0
            (V3D.spawnRate3D ((100 : ℚ) / 100)).toNat []).length ≤ V3D.MAX_PARTICLES ∧
        (V3D.frame3D 100 1 (fun _ => ⟨0, 0, 0, 0, 0, 0⟩) (fun _ => ⟨0⟩) []).length
            ≤ V3D.MAX_PARTICLES ∧
        ∀ i < (V3D.frame3D 100 1 (fun _ => ⟨0, 0, 0, 0, 0, 0⟩) (fun _ => ⟨0⟩) []).length,
          3 * i + 2 < 3 * V3D.MAX_PARTICLES) :=
  ⟨by simp, buffer_writes_in_bounds 100 1 (fun _ => ⟨0, 0, 0, 0, 0, 0⟩) (fun _ => ⟨0⟩) []
    (by simp)⟩

end FireSim
